import Mathlib

/-
Verification of the stream lifecycle, pacing and buffering logic of the
Samsung p4-common audio HAL (libaudio/audio_hw.c).

The C code is shallowly embedded: the device/stream structs become Lean
structures, the hardware collaborators (pcm driver, resampler, mixer) are
modelled by explicit environment parameters (open success flags, timestamp
readings, read/write return codes), and every function below is translated
line by line from the cited region of audio_hw.c.  Machine integers are
modelled by Nat/Int; all divisions exercised by the theorems are on
non-negative operands, where C truncating division and Lean division agree.
Locks are not modelled: stream-state transitions are serialized through the
device mutex in the source, so each negotiation is embedded as one atomic
state-to-state function.
-/

/- Compile-time constants, audio_hw.c lines 47-60. -/

def OUT_PERIOD_SIZE : Nat := 1024

def OUT_SHORT_PERIOD_COUNT : Nat := 2

def OUT_LONG_PERIOD_COUNT : Nat := 4

def OUT_SAMPLING_RATE : Nat := 44100

def IN_PERIOD_SIZE : Nat := 1024

def IN_PERIOD_SIZE_LOW_LATENCY : Nat := 512

def IN_PERIOD_COUNT : Nat := 4

def IN_SAMPLING_RATE : Nat := 44100

/-- minimum sleep time in out_write() when write threshold is not reached -/
def MIN_WRITE_SLEEP_US : Int := 2000

/-- line 59: (OUT_PERIOD_SIZE * OUT_SHORT_PERIOD_COUNT * 1000000) / OUT_SAMPLING_RATE -/
def MAX_WRITE_SLEEP_US : Int :=
  Int.ofNat ((OUT_PERIOD_SIZE * OUT_SHORT_PERIOD_COUNT * 1000000) / OUT_SAMPLING_RATE)

/- errno codes used by the source. -/

def ENOMEM : Int := 12

def ENODEV : Int := 19

def EINVAL : Int := 22

def EPIPE : Int := 32

def ENOSYS : Int := 38

/-- enum at lines 62-66 -/
inductive BufferType where
  | unknown
  | short
  | long
  deriving DecidableEq, Repr

/-- struct pcm_config (the fields the HAL logic reads). -/
structure PcmConfig where
  channels : Nat
  rate : Nat
  period_size : Nat
  period_count : Nat
  deriving DecidableEq, Repr

/-- pcm_config_out, lines 68-79 -/
def pcm_config_out : PcmConfig :=
  { channels := 2, rate := OUT_SAMPLING_RATE,
    period_size := OUT_PERIOD_SIZE, period_count := OUT_LONG_PERIOD_COUNT }

/-- pcm_config_in, lines 81-93 -/
def pcm_config_in : PcmConfig :=
  { channels := 2, rate := IN_SAMPLING_RATE,
    period_size := IN_PERIOD_SIZE, period_count := IN_PERIOD_COUNT }

/-- pcm_config_in_low_latency, lines 95-103 -/
def pcm_config_in_low_latency : PcmConfig :=
  { channels := 2, rate := IN_SAMPLING_RATE,
    period_size := IN_PERIOD_SIZE_LOW_LATENCY, period_count := IN_PERIOD_COUNT }

/-- out_get_sample_rate, lines 618-621: returns pcm_config_out.rate. -/
def out_get_sample_rate : Nat := pcm_config_out.rate

/-- audio_stream_out_frame_size: stereo (2 channels) 16-bit PCM, 4 bytes per frame. -/
def audio_stream_out_frame_size : Nat := 2 * 2

/-- audio_channel_count_from_out_mask(AUDIO_CHANNEL_OUT_STEREO) = 2. -/
def out_channel_count : Nat := 2

/-- The branch condition at lines 413 and 891:
out_get_sample_rate(&out->stream.common) != out->pcm_config->rate,
with out->pcm_config always pointing at pcm_config_out. -/
def out_resample_needed : Bool := out_get_sample_rate != pcm_config_out.rate

/-- Line 420-421: (pcm_config_out.period_size * out->pcm_config->rate) /
out_get_sample_rate(...) + 1, parametrized by the stream rate the getter
returns (the divisor at the call site); C size_t division truncates. -/
def out_buffer_frames (stream_rate : Nat) : Nat :=
  (pcm_config_out.period_size * pcm_config_out.rate) / stream_rate + 1

/- Mutable state of struct stream_out (lines 125-146).  `pcmOpen` is true
exactly when the stream owns an open pcm handle; `resampler` and `buffer`
record ownership of the optional resampler session and conversion buffer. -/
structure StreamOutState where
  pcmOpen : Bool
  standby : Bool
  written : Nat
  resampler : Bool
  buffer : Bool
  buffer_frames : Nat
  write_threshold : Int
  cur_write_threshold : Int
  buffer_type : BufferType
  deriving DecidableEq, Repr

/-- Mutable state of struct stream_in (lines 148-168). -/
structure StreamInState where
  pcmOpen : Bool
  standby : Bool
  resampler : Bool
  buffer : Bool
  frames_in : Nat
  requested_rate : Nat
  deriving DecidableEq, Repr

/-- Mutable state of struct audio_device (lines 105-123): whether the single
output/input stream of the model is registered as active, plus the flags the
embedded code paths read. -/
structure DeviceState where
  active_out : Bool
  active_in : Bool
  screen_off : Bool
  mic_mute : Bool
  deriving DecidableEq, Repr

/-- Whole-system state: one device, one output stream, one input stream. -/
structure Sys where
  dev : DeviceState
  out : StreamOutState
  inp : StreamInState
  deriving DecidableEq, Repr

/-- A fresh system: adev_open zeroes the device (calloc, lines 1677-1707) and
adev_open_output_stream / adev_open_input_stream create streams in standby
with all optional resources absent (calloc + standby=true, lines 1364-1403
and 1597-1629). -/
def sys0 : Sys :=
  { dev := { active_out := false, active_in := false, screen_off := false, mic_mute := false },
    out := { pcmOpen := false, standby := true, written := 0, resampler := false,
             buffer := false, buffer_frames := 0, write_threshold := 0,
             cur_write_threshold := 0, buffer_type := BufferType.unknown },
    inp := { pcmOpen := false, standby := true, resampler := false, buffer := false,
             frames_in := 0, requested_rate := 44100 } }

/-- Resource-release actions performed by the standby routines. -/
inductive ReleaseEffect where
  | pcmClose
  | resamplerRelease
  | bufferFree
  deriving DecidableEq, Repr

/-- do_out_standby, lines 342-362 (state change). -/
def do_out_standby (s : Sys) : Sys :=
  if !s.out.standby then
    { s with
      out := { s.out with pcmOpen := false, resampler := false, buffer := false,
                          standby := true },
      dev := { s.dev with active_out := false } }
  else s

/-- do_out_standby, lines 342-362 (hardware releases performed). -/
def do_out_standby_effects (s : Sys) : List ReleaseEffect :=
  if !s.out.standby then
    ReleaseEffect.pcmClose ::
      ((if s.out.resampler then [ReleaseEffect.resamplerRelease] else []) ++
       (if s.out.buffer then [ReleaseEffect.bufferFree] else []))
  else []

/-- do_in_standby, lines 365-385 (state change). -/
def do_in_standby (s : Sys) : Sys :=
  if !s.inp.standby then
    { s with
      inp := { s.inp with pcmOpen := false, resampler := false, buffer := false,
                          standby := true },
      dev := { s.dev with active_in := false } }
  else s

/-- do_in_standby, lines 365-385 (hardware releases performed). -/
def do_in_standby_effects (s : Sys) : List ReleaseEffect :=
  if !s.inp.standby then
    ReleaseEffect.pcmClose ::
      ((if s.inp.resampler then [ReleaseEffect.resamplerRelease] else []) ++
       (if s.inp.buffer then [ReleaseEffect.bufferFree] else []))
  else []

/-- start_output_stream, lines 388-434.  `openReady` is pcm_is_ready() of the
handle returned by pcm_open (tinyalsa returns a handle that is not ready on
failure); on failure the handle is closed and -ENOMEM returned.  The
resampler branch condition is the literal source condition
(out_resample_needed), which is decided by the constants. -/
def start_output_stream (openReady : Bool) (s : Sys) : Int × Sys :=
  let o := { s.out with buffer_type := BufferType.unknown }
  if !openReady then
    (-ENOMEM, { s with out := { o with pcmOpen := false } })
  else
    let o := { o with pcmOpen := true }
    let o :=
      if out_resample_needed then
        { o with resampler := true,
                 buffer_frames := out_buffer_frames out_get_sample_rate,
                 buffer := true }
      else o
    (0, { s with out := o, dev := { s.dev with active_out := true } })

/-- start_input_stream, lines 437-479. -/
def start_input_stream (openReady : Bool) (s : Sys) : Int × Sys :=
  if !openReady then
    (-ENOMEM, { s with inp := { s.inp with pcmOpen := false } })
  else
    let i := { s.inp with pcmOpen := true }
    let i := if s.inp.requested_rate ≠ pcm_config_in.rate then { i with resampler := true } else i
    let i := { i with buffer := true, frames_in := 0 }
    (0, { s with inp := i, dev := { s.dev with active_in := true } })

/-- The standby-exit negotiation of out_write, lines 777-856.  If an input
stream is registered and non-standby it is forced to standby
(do_in_standby) before the output pcm is opened, and restarted
(start_input_stream, in->standby = false) after the output started
successfully.  On start_output_stream failure control jumps to the exit
label with the error still pending and out->standby untouched. -/
def out_write_activate (openOutOk openInOk : Bool) (s : Sys) : Int × Sys :=
  if s.out.standby then
    let hasIn := s.dev.active_in
    let restart_input := hasIn && !s.inp.standby
    let s1 := if hasIn && !s.inp.standby then do_in_standby s else s
    let r := start_output_stream openOutOk s1
    if r.1 ≠ 0 then r
    else
      let s2 := r.2
      let s3 :=
        if restart_input && s2.inp.standby then
          let r2 := start_input_stream openInOk s2
          if r2.1 = 0 then { r2.2 with inp := { r2.2.inp with standby := false } } else r2.2
        else s2
      (0, { s3 with out := { s3.out with standby := false } })
  else (0, s)

/-- The standby-exit negotiation of in_read, lines 1215-1286.  If an output
stream is registered and non-standby it is cycled through standby and
restarted (do_out_standby; start_output_stream; out->standby = false, lines
1247-1266) before the input stream itself is started. -/
def in_read_activate (openOutOk openInOk : Bool) (s : Sys) : Int × Sys :=
  if s.inp.standby then
    let s1 :=
      if s.dev.active_out && !s.out.standby then
        let sA := do_out_standby s
        let rO := start_output_stream openOutOk sA
        { rO.2 with out := { rO.2.out with standby := false } }
      else s
    let r := start_input_stream openInOk s1
    if r.1 = 0 then (0, { r.2 with inp := { r.2.inp with standby := false } })
    else (r.1, r.2)
  else (0, s)

/-- out_get_presentation_position, lines 1009-1046.  `htimestamp` is the
available-frame count reported by pcm_get_htimestamp (none when the call
fails).  Returns (status, reported frame count). -/
def out_get_presentation_position (standby pcmOpen : Bool) (written : Nat)
    (htimestamp : Option Nat) : Int × Option Nat :=
  if standby then (-ENOSYS, none)
  else if !pcmOpen then (-ENOSYS, none)
  else
    match htimestamp with
    | none => (-1, none)
    | some avail =>
      let kernel_buffer_size : Int :=
        Int.ofNat (pcm_config_out.period_size * pcm_config_out.period_count)
      let signed_frames : Int := (written : Int) - kernel_buffer_size + (avail : Int)
      if 0 ≤ signed_frames then (0, some signed_frames.toNat) else (-1, none)

/-- struct audio_config (the two fields adev_open_output_stream checks). -/
structure AudioConfig where
  channel_mask : Nat
  sample_rate : Nat
  deriving DecidableEq, Repr

def AUDIO_CHANNEL_OUT_STEREO : Nat := 3

/-- The configuration check of adev_open_output_stream, lines 1368-1373 and
1396-1398: reject anything but stereo / 44100 with -EINVAL, otherwise report
back the fixed stream parameters. -/
def adev_open_output_stream (config : AudioConfig) : Except Int AudioConfig :=
  if config.channel_mask ≠ AUDIO_CHANNEL_OUT_STEREO ∨ config.sample_rate ≠ 44100 then
    Except.error (-EINVAL)
  else
    Except.ok { channel_mask := AUDIO_CHANNEL_OUT_STEREO, sample_rate := out_get_sample_rate }

/- ---- BufferProvider (get_next_buffer / release_buffer), lines 481-539 ---- -/

/-- The provider-visible state of stream_in: the carry-count frames_in plus an
instrumentation counter of pcm_read calls performed. -/
structure InBufState where
  frames_in : Nat
  reads : Nat
  deriving DecidableEq, Repr

/-- get_next_buffer, lines 481-525.  `pcmOpen` models in->pcm != NULL,
`readStatus` the pcm_read result when a read is issued, `period` the
in->pcm_config->period_size, `req` the requested frame_count.  Returns
(new state, frames granted, status). -/
def get_next_buffer (pcmOpen : Bool) (readStatus : Int) (period req : Nat)
    (st : InBufState) : InBufState × Nat × Int :=
  if !pcmOpen then (st, 0, -ENODEV)
  else if st.frames_in = 0 then
    if readStatus ≠ 0 then ({ st with reads := st.reads + 1 }, 0, readStatus)
    else
      let st1 : InBufState := { frames_in := period, reads := st.reads + 1 }
      (st1, min req period, 0)
  else (st, min req st.frames_in, 0)

/-- release_buffer, lines 527-539: frames_in -= consumed. -/
def release_buffer (consumed : Nat) (st : InBufState) : InBufState :=
  { st with frames_in := st.frames_in - consumed }

/-- A call on the provider protocol: getNextBuffer req or releaseBuffer c. -/
inductive BufOp where
  | get (req : Nat)
  | rel (consumed : Nat)
  deriving DecidableEq, Repr

/-- Run a sequence of provider calls on an open stream whose reads succeed. -/
def runBufOps (period : Nat) : List BufOp → InBufState → InBufState
  | [], st => st
  | BufOp.get req :: ops, st => runBufOps period ops (get_next_buffer true 0 period req st).1
  | BufOp.rel c :: ops, st => runBufOps period ops (release_buffer c st)

/-- Protocol validity: the resampler never releases more than it was granted,
so each releaseBuffer consumes at most the current carry-count. -/
def bufOpsValid (period : Nat) : List BufOp → InBufState → Bool
  | [], _ => true
  | BufOp.get req :: ops, st => bufOpsValid period ops (get_next_buffer true 0 period req st).1
  | BufOp.rel c :: ops, st => decide (c ≤ st.frames_in) && bufOpsValid period ops (release_buffer c st)

/-- Total frames released over a call sequence. -/
def consumedOf : List BufOp → Nat
  | [] => 0
  | BufOp.get _ :: ops => consumedOf ops
  | BufOp.rel c :: ops => c + consumedOf ops

/-- The threshold-smoothing block of out_write, lines 941-956: step
cur_write_threshold a quarter period towards write_threshold without
overshooting; only in the already-converged case, reset it just above the
current kernel filling when the kernel buffer has drained more than
period_size * OUT_SHORT_PERIOD_COUNT frames below the target.  All values
exercised are non-negative, where C truncating division and Lean division
agree. -/
def threshold_update (cur target kernel_frames : Int) (period_size : Nat) : Int :=
  let q : Int := Int.ofNat (period_size / 4)
  if target < cur then
    let c := cur - q
    if c < target then target else c
  else if cur < target then
    let c := cur + q
    if target < c then target else c
  else if kernel_frames < target ∧
          target - kernel_frames > Int.ofNat (period_size * OUT_SHORT_PERIOD_COUNT) then
    (kernel_frames / Int.ofNat period_size + 1) * Int.ofNat period_size + q
  else cur

/-- Iterated writes: threshold_update applied once per write at the fixed
output period size (out->pcm_config->period_size = 1024), with `ks` the
sequence of kernel_frames readings observed at the successive writes. -/
def threshold_iter (target : Int) (ks : Nat → Int) (cur : Int) : Nat → Int
  | 0 => cur
  | n + 1 =>
    threshold_iter target (fun i => ks (i + 1))
      (threshold_update cur target (ks 0) pcm_config_out.period_size) n

/-- pcm_get_buffer_size(out->pcm) = period_size * period_count. -/
def pcm_out_buffer_size : Int :=
  Int.ofNat (pcm_config_out.period_size * pcm_config_out.period_count)

/-- Observable outcome of one run of the pacing loop. -/
structure PaceState where
  kernel_frames : Int
  total_sleep_time_us : Int
  slept_us : Int
  deriving DecidableEq, Repr

/-- Why the pacing loop exited. -/
inductive PaceExit where
  | tsError
  | belowThreshold
  | minSleep
  | maxSleep
  deriving DecidableEq, Repr

/-- The write-pacing do-while loop of out_write, lines 901-932.  `htimestamp`
gives the avail count returned by pcm_get_htimestamp at each iteration (none
for a failing call, which breaks out of the loop); kernel_frames :=
pcm_get_buffer_size - avail.  `slept_us` accumulates the actual usleep
arguments, `total_sleep_time_us` the loop's own counter.  The loop is
embedded with fuel; C8's theorem shows fuel 30 is never exhausted. -/
def pace_loop (cur_write_threshold : Int) (htimestamp : Nat → Option Int) :
    Nat → Nat → PaceState → PaceState × Option PaceExit
  | 0, _, st => (st, none)
  | fuel + 1, i, st =>
    match htimestamp i with
    | none => (st, some PaceExit.tsError)
    | some avail =>
      let k := pcm_out_buffer_size - avail
      if cur_write_threshold < k then
        let sleep_time_us := (k - cur_write_threshold) * 1000000 / Int.ofNat OUT_SAMPLING_RATE
        if sleep_time_us < MIN_WRITE_SLEEP_US then
          ({ st with kernel_frames := k }, some PaceExit.minSleep)
        else
          let total := st.total_sleep_time_us + sleep_time_us
          let actual :=
            if MAX_WRITE_SLEEP_US < total then MAX_WRITE_SLEEP_US - (total - sleep_time_us)
            else sleep_time_us
          let st1 : PaceState :=
            { kernel_frames := k, total_sleep_time_us := total, slept_us := st.slept_us + actual }
          if MAX_WRITE_SLEEP_US < total then (st1, some PaceExit.maxSleep)
          else pace_loop cur_write_threshold htimestamp fuel (i + 1) st1
      else ({ st with kernel_frames := k }, some PaceExit.belowThreshold)

/-- The regime-selection block of out_write, lines 857-875: pick LONG when the
screen is off and no input is active, else SHORT; on a regime change set
write_threshold = period_size * period_count(regime), snapping
cur_write_threshold to it only when leaving standby (previous type
UNKNOWN). -/
def out_write_regime (screen_off active_in : Bool) (o : StreamOutState) : StreamOutState :=
  let buffer_type : BufferType :=
    if screen_off && !active_in then BufferType.long else BufferType.short
  if buffer_type ≠ o.buffer_type then
    let period_count :=
      if buffer_type = BufferType.long then OUT_LONG_PERIOD_COUNT else OUT_SHORT_PERIOD_COUNT
    let wt : Int := Int.ofNat (pcm_config_out.period_size * period_count)
    let o1 := { o with write_threshold := wt }
    let o2 :=
      if o.buffer_type = BufferType.unknown then { o1 with cur_write_threshold := wt } else o1
    { o2 with buffer_type := buffer_type }
  else o

/-- Hardware behaviour visible to one out_write call: pcm_is_ready of the
output (and, when the negotiation restarts the input, input) open, the
uninitialized initial value of the local kernel_frames, the successive
pcm_get_htimestamp readings of the pacing loop, the frame count a resampler
would produce (dead branch), and the pcm_write return code. -/
structure OutWriteEnv where
  openOutOk : Bool
  openInOk : Bool
  kernel_frames0 : Int
  htimestamp : Nat → Option Int
  resampler_out_frames : Nat
  pcm_write_ret : Int

/-- Observable outcome of one out_write call: the ssize_t it returns, the
compensating usleep performed after unlock (line 978), the total time slept
inside the pacing loop, whether the resample branch ran, and the final
system state. -/
structure OutWriteResult where
  retval : Int
  comp_sleep_us : Nat
  pace_slept_us : Int
  resampled : Bool
  sys : Sys

/-- out_write, lines 737-985, composed from the activation negotiation
(out_write_activate), the regime block (out_write_regime), the channel-
reduction branch (2 > pcm_config.channels, line 878: never taken for the
stereo config, it only halves the local frame_size), the resample branch
(line 891), the pacing loop (pace_loop), the threshold smoothing
(threshold_update) and the pcm_write dispatch with its -EPIPE early return
(960-968), written-counter update (969-971) and exit path (973-984). -/
def out_write (e : OutWriteEnv) (bytes : Nat) (s : Sys) : OutWriteResult :=
  let in_frames := bytes / audio_stream_out_frame_size
  let act := out_write_activate e.openOutOk e.openInOk s
  if act.1 ≠ 0 then
    { retval := (bytes : Int),
      comp_sleep_us := bytes * 1000000 / audio_stream_out_frame_size / OUT_SAMPLING_RATE,
      pace_slept_us := 0, resampled := false, sys := act.2 }
  else
    let s1 := act.2
    let o1 := out_write_regime s1.dev.screen_off s1.dev.active_in s1.out
    let rs := if out_resample_needed then (e.resampler_out_frames, true) else (in_frames, false)
    let pace := pace_loop o1.cur_write_threshold e.htimestamp 30 0
      { kernel_frames := e.kernel_frames0, total_sleep_time_us := 0, slept_us := 0 }
    let o2 := { o1 with
      cur_write_threshold :=
        threshold_update o1.cur_write_threshold o1.write_threshold
          (pace.1.kernel_frames) pcm_config_out.period_size }
    if e.pcm_write_ret = -EPIPE then
      { retval := -EPIPE, comp_sleep_us := 0, pace_slept_us := pace.1.slept_us,
        resampled := rs.2, sys := { s1 with out := o2 } }
    else
      let o3 := if e.pcm_write_ret = 0 then { o2 with written := o2.written + rs.1 } else o2
      { retval := (bytes : Int),
        comp_sleep_us :=
          if e.pcm_write_ret ≠ 0 then
            bytes * 1000000 / audio_stream_out_frame_size / OUT_SAMPLING_RATE
          else 0,
        pace_slept_us := pace.1.slept_us, resampled := rs.2,
        sys := { s1 with out := o3 } }

/-- A concrete environment where every hardware call succeeds and the first
timestamp query fails benignly (loop exits at once). -/
def env_ok : OutWriteEnv :=
  { openOutOk := true, openInOk := true, kernel_frames0 := 0,
    htimestamp := fun _ => none, resampler_out_frames := 0, pcm_write_ret := 0 }

/-- A concrete environment where pcm_open of the output yields a handle that
is not ready (the open-failure mode of tinyalsa). -/
def env_openfail : OutWriteEnv :=
  { openOutOk := false, openInOk := true, kernel_frames0 := 0,
    htimestamp := fun _ => none, resampler_out_frames := 0, pcm_write_ret := 0 }

theorem do_in_standby_out_eq (s : Sys) : (do_in_standby s).out = s.out := by
  unfold do_in_standby; split <;> rfl

theorem do_out_standby_inp_eq (s : Sys) : (do_out_standby s).inp = s.inp := by
  unfold do_out_standby; split <;> rfl

/-- Claim C9: invoking standby on a stream that is already in standby performs
no hardware release (no handle close, no resampler release, no buffer free)
and leaves the stream and device state unchanged, for any number of repeated
invocations; per stream, with no constraint on the opposite direction: the
output conjunct needs only the output to be standby, the input conjunct only
the input. -/
theorem C9_standby_idempotent (s : Sys) :
    (s.out.standby = true →
       do_out_standby s = s ∧ do_out_standby_effects s = [] ∧
       ∀ n : Nat, do_out_standby^[n] s = s) ∧
    (s.inp.standby = true →
       do_in_standby s = s ∧ do_in_standby_effects s = [] ∧
       ∀ n : Nat, do_in_standby^[n] s = s) := by
  constructor
  · intro ho
    have hout : do_out_standby s = s := by unfold do_out_standby; simp [ho]
    refine ⟨hout, by unfold do_out_standby_effects; simp [ho], ?_⟩
    intro n
    induction n with
    | zero => rfl
    | succ k ih => simp [Function.iterate_succ_apply, hout, ih]
  · intro hi
    have hin : do_in_standby s = s := by unfold do_in_standby; simp [hi]
    refine ⟨hin, by unfold do_in_standby_effects; simp [hi], ?_⟩
    intro n
    induction n with
    | zero => rfl
    | succ k ih => simp [Function.iterate_succ_apply, hin, ih]

/-- Witness for C9 at reachable mixed states: a standby output while the
input is active (the state after in_read_activate from the fresh system),
and a standby input while the output is active (the state after
out_write_activate from the fresh system). -/
theorem C9_standby_idempotent_witness :
    (do_out_standby (in_read_activate true true sys0).2 = (in_read_activate true true sys0).2 ∧
     do_out_standby_effects (in_read_activate true true sys0).2 = [] ∧
     do_out_standby^[5] (in_read_activate true true sys0).2 =
       (in_read_activate true true sys0).2) ∧
    (do_in_standby (out_write_activate true true sys0).2 = (out_write_activate true true sys0).2 ∧
     do_in_standby_effects (out_write_activate true true sys0).2 = [] ∧
     do_in_standby^[5] (out_write_activate true true sys0).2 =
       (out_write_activate true true sys0).2) :=
  ⟨⟨((C9_standby_idempotent (in_read_activate true true sys0).2).1 (by decide)).1,
    ((C9_standby_idempotent (in_read_activate true true sys0).2).1 (by decide)).2.1,
    ((C9_standby_idempotent (in_read_activate true true sys0).2).1 (by decide)).2.2 5⟩,
   ⟨((C9_standby_idempotent (out_write_activate true true sys0).2).2 (by decide)).1,
    ((C9_standby_idempotent (out_write_activate true true sys0).2).2 (by decide)).2.1,
    ((C9_standby_idempotent (out_write_activate true true sys0).2).2 (by decide)).2.2 5⟩⟩

/-- Claim C1, counterexample: from the fresh system, an in_read activation
(reachable, leaving the input non-standby) followed by one out_write
activation negotiation ends with BOTH streams non-standby: out_write forces
the input to standby mid-negotiation but restarts it (lines 824-834) before
completing, so the opposite-direction stream is not in standby afterwards. -/
theorem C1_counterexample :
    (in_read_activate true true sys0).2.inp.standby = false ∧
    (in_read_activate true true sys0).2.dev.active_in = true ∧
    (out_write_activate true true (in_read_activate true true sys0).2).1 = 0 ∧
    (out_write_activate true true (in_read_activate true true sys0).2).2.out.standby = false ∧
    (out_write_activate true true (in_read_activate true true sys0).2).2.inp.standby = false := by
  decide

/-- Claim C1 as amended: the at-most-one-non-standby condition is only
transient inside a negotiation, not a post-state invariant.  An out_write
activation that finds a registered non-standby input forces it to standby
(do_in_standby) before opening the output hardware, but restarts it before
the negotiation completes, so both directions end non-standby; in_read
behaves symmetrically towards an active output. -/
theorem C1_amended :
    (∀ s : Sys, s.out.standby = true → s.dev.active_in = true → s.inp.standby = false →
       (do_in_standby s).inp.standby = true ∧
       (out_write_activate true true s).1 = 0 ∧
       (out_write_activate true true s).2.out.standby = false ∧
       (out_write_activate true true s).2.inp.standby = false) ∧
    (∀ s : Sys, s.inp.standby = true → s.dev.active_out = true → s.out.standby = false →
       (do_out_standby s).out.standby = true ∧
       (in_read_activate true true s).2.out.standby = false ∧
       (in_read_activate true true s).2.inp.standby = false) := by
  constructor
  · intro s hout hin hnsb
    simp only [out_write_activate, do_in_standby, start_output_stream, start_input_stream,
      hout, hin, hnsb]
    simp
  · intro s hin hout hnsb
    simp only [in_read_activate, do_out_standby, start_output_stream, start_input_stream,
      hin, hout, hnsb]
    simp

/-- Witness for C1's amended theorem at a concrete reachable state. -/
theorem C1_amended_witness :
    ((do_in_standby (in_read_activate true true sys0).2).inp.standby = true ∧
     (out_write_activate true true (in_read_activate true true sys0).2).1 = 0 ∧
     (out_write_activate true true (in_read_activate true true sys0).2).2.out.standby = false ∧
     (out_write_activate true true (in_read_activate true true sys0).2).2.inp.standby = false) :=
  C1_amended.1 (in_read_activate true true sys0).2 (by decide) (by decide) (by decide)

/-- Characterization of the presentation-position query on an active stream
with a successful timestamp read. -/
theorem out_get_presentation_position_active (w avail : Nat) :
    out_get_presentation_position false true w (some avail) =
      if 0 ≤ (w : Int) - 4096 + (avail : Int)
      then (0, some (((w : Int) - 4096 + (avail : Int)).toNat))
      else (-1, none) := by
  have hk : Int.ofNat (pcm_config_out.period_size * pcm_config_out.period_count) = (4096 : Int) := by
    decide
  unfold out_get_presentation_position
  rw [hk]
  simp

/-- Claim C3: the presentation-position query fails with -ENOSYS when the
stream is in standby or has no open handle; otherwise (with a successful
hardware timestamp read reporting `avail` frames) it computes
signed = written - kernel_buffer_size + avail with kernel_buffer_size
= 1024*4 = 4096 and succeeds exactly when signed >= 0, reporting that value
(never a negative position); at written = 10000 and avail = 2000 it reports
7904. -/
theorem C3_presentation_position :
    (∀ (p : Bool) (w : Nat) (ts : Option Nat),
       out_get_presentation_position true p w ts = (-ENOSYS, none)) ∧
    (∀ (w : Nat) (ts : Option Nat),
       out_get_presentation_position false false w ts = (-ENOSYS, none)) ∧
    (∀ (w avail : Nat),
       ((out_get_presentation_position false true w (some avail)).1 = 0 ↔
          0 ≤ (w : Int) - 4096 + (avail : Int)) ∧
       (0 ≤ (w : Int) - 4096 + (avail : Int) →
          out_get_presentation_position false true w (some avail) =
            (0, some ((w : Int) - 4096 + (avail : Int)).toNat))) ∧
    out_get_presentation_position false true 10000 (some 2000) = (0, some 7904) := by
  refine ⟨fun p w ts => rfl, fun w ts => rfl, fun w avail => ?_, by decide⟩
  constructor
  · rw [out_get_presentation_position_active w avail]
    by_cases h : 0 ≤ (w : Int) - 4096 + (avail : Int)
    · simp [h]
    · simp [h]
  · intro h
    rw [out_get_presentation_position_active w avail, if_pos h]

/-- Witness for C3 at written = 10000, avail = 2000. -/
theorem C3_presentation_position_witness :
    ((out_get_presentation_position false true 10000 (some 2000)).1 = 0 ↔
       0 ≤ (10000 : Int) - 4096 + (2000 : Int)) ∧
    (0 ≤ (10000 : Int) - 4096 + (2000 : Int) →
       out_get_presentation_position false true 10000 (some 2000) =
         (0, some ((10000 : Int) - 4096 + (2000 : Int)).toNat)) :=
  C3_presentation_position.2.2.1 10000 2000

/-- Claim C5, counterexample: the conversion-buffer sizing at line 420 uses C
integer (floor) division, so for requested rate 48000 against 44100/1024 it
yields floor(1024*44100/48000)+1 = 941 frames, not the claimed
ceil(1024*44100/48000)+1 = 942. -/
theorem C5_counterexample :
    out_buffer_frames 48000 = 941 ∧
    (pcm_config_out.period_size * pcm_config_out.rate + 48000 - 1) / 48000 + 1 = 942 ∧
    out_buffer_frames 48000 ≠ 942 := by
  refine ⟨by decide, by decide, by decide⟩

/-- Claim C5 as amended: the intermediate buffer is sized to
floor(period_size * hardware_rate / requested_rate) + 1 frames; for requested
rate 48000 against hardware rate 44100 and period 1024 this is 941 frames.
The second conjunct characterizes the floor in the sizing formula. -/
theorem C5_amended :
    out_buffer_frames 48000 = 941 ∧
    (∀ r : Nat, 0 < r →
       r * (out_buffer_frames r - 1) ≤ pcm_config_out.period_size * pcm_config_out.rate ∧
       pcm_config_out.period_size * pcm_config_out.rate < r * out_buffer_frames r) := by
  refine ⟨by decide, fun r hr => ?_⟩
  unfold out_buffer_frames
  have h1 := Nat.div_add_mod (pcm_config_out.period_size * pcm_config_out.rate) r
  have h2 := Nat.mod_lt (pcm_config_out.period_size * pcm_config_out.rate) hr
  have hms : r * (pcm_config_out.period_size * pcm_config_out.rate / r + 1) =
      r * (pcm_config_out.period_size * pcm_config_out.rate / r) + r := by ring
  constructor
  · simp only [Nat.add_sub_cancel]
    omega
  · rw [hms]
    omega

/-- Witness for C5's amended theorem at requested rate 48000. -/
theorem C5_amended_witness :
    48000 * (out_buffer_frames 48000 - 1) ≤ pcm_config_out.period_size * pcm_config_out.rate ∧
    pcm_config_out.period_size * pcm_config_out.rate < 48000 * out_buffer_frames 48000 :=
  C5_amended.2 48000 (by decide)

theorem runBufOps_conservation (period : Nat) (ops : List BufOp) :
    ∀ st : InBufState, bufOpsValid period ops st = true →
      period * (runBufOps period ops st).reads + st.frames_in =
        period * st.reads + consumedOf ops + (runBufOps period ops st).frames_in := by
  induction ops with
  | nil => intro st _; simp [runBufOps, consumedOf]
  | cons op ops ih =>
    intro st hv
    cases op with
    | get req =>
      simp only [runBufOps, bufOpsValid, consumedOf] at hv ⊢
      by_cases h0 : st.frames_in = 0
      · have hg : (get_next_buffer true 0 period req st).1 =
            ({ frames_in := period, reads := st.reads + 1 } : InBufState) := by
          simp [get_next_buffer, h0]
        rw [hg] at hv ⊢
        have hih := ih _ hv
        dsimp only at hih
        have hms : period * (st.reads + 1) = period * st.reads + period := by ring
        rw [hms] at hih
        omega
      · have hg : (get_next_buffer true 0 period req st).1 = st := by
          simp [get_next_buffer, h0]
        rw [hg] at hv ⊢
        exact ih _ hv
    | rel c =>
      simp only [runBufOps, bufOpsValid, consumedOf, Bool.and_eq_true, decide_eq_true_eq] at hv ⊢
      obtain ⟨hc, hv⟩ := hv
      have := ih _ hv
      simp only [release_buffer] at this ⊢
      omega

/-- Claim C7: getNextBuffer performs a hardware read (of exactly one period,
setting the carry-count to the period size) only when the carry-count is
zero, returns a view clipped to min(requested, carry-count), and
releaseBuffer decrements the carry-count by the consumed amount; over any
valid call sequence the conservation law period * reads = consumed + carry
holds, i.e. exactly one read occurs per full exhaustion of the carry buffer
and partial consumption never triggers a re-read. -/
theorem C7_buffer_provider :
    (∀ (p req : Nat) (st : InBufState), st.frames_in = 0 →
       (get_next_buffer true 0 p req st).1.reads = st.reads + 1 ∧
       (get_next_buffer true 0 p req st).1.frames_in = p ∧
       (get_next_buffer true 0 p req st).2.1 = min req p ∧
       (get_next_buffer true 0 p req st).2.2 = 0) ∧
    (∀ (p req : Nat) (st : InBufState), st.frames_in ≠ 0 →
       (get_next_buffer true 0 p req st).1 = st ∧
       (get_next_buffer true 0 p req st).2.1 = min req st.frames_in ∧
       (get_next_buffer true 0 p req st).2.2 = 0) ∧
    (∀ (c : Nat) (st : InBufState),
       (release_buffer c st).frames_in = st.frames_in - c ∧
       (release_buffer c st).reads = st.reads) ∧
    (∀ (p : Nat) (ops : List BufOp) (st : InBufState), bufOpsValid p ops st = true →
       p * (runBufOps p ops st).reads + st.frames_in =
         p * st.reads + consumedOf ops + (runBufOps p ops st).frames_in) := by
  refine ⟨?_, ?_, ?_, fun p ops st hv => runBufOps_conservation p ops st hv⟩
  · intro p req st h0
    simp [get_next_buffer, h0]
  · intro p req st h0
    simp [get_next_buffer, h0]
  · intro c st
    simp [release_buffer]

/-- Witness for C7: a concrete session of two full periods consumed across
five provider calls, with one hardware read per period. -/
theorem C7_buffer_provider_witness :
    ((get_next_buffer true 0 1024 700 ⟨0, 5⟩).1.reads = 5 + 1 ∧
     (get_next_buffer true 0 1024 700 ⟨0, 5⟩).1.frames_in = 1024 ∧
     (get_next_buffer true 0 1024 700 ⟨0, 5⟩).2.1 = min 700 1024 ∧
     (get_next_buffer true 0 1024 700 ⟨0, 5⟩).2.2 = 0) ∧
    ((get_next_buffer true 0 1024 700 ⟨324, 1⟩).1 = ⟨324, 1⟩ ∧
     (get_next_buffer true 0 1024 700 ⟨324, 1⟩).2.1 = min 700 324 ∧
     (get_next_buffer true 0 1024 700 ⟨324, 1⟩).2.2 = 0) ∧
    ((release_buffer 700 ⟨1024, 1⟩).frames_in = 1024 - 700 ∧
     (release_buffer 700 ⟨1024, 1⟩).reads = 1) ∧
    (1024 * (runBufOps 1024
        [BufOp.get 700, BufOp.rel 700, BufOp.get 700, BufOp.rel 324,
         BufOp.get 700, BufOp.rel 700] ⟨0, 0⟩).reads + 0 =
      1024 * 0 + consumedOf
        [BufOp.get 700, BufOp.rel 700, BufOp.get 700, BufOp.rel 324,
         BufOp.get 700, BufOp.rel 700] +
      (runBufOps 1024
        [BufOp.get 700, BufOp.rel 700, BufOp.get 700, BufOp.rel 324,
         BufOp.get 700, BufOp.rel 700] ⟨0, 0⟩).frames_in) :=
  ⟨C7_buffer_provider.1 1024 700 ⟨0, 5⟩ rfl,
   C7_buffer_provider.2.1 1024 700 ⟨324, 1⟩ (by decide),
   C7_buffer_provider.2.2.1 700 ⟨1024, 1⟩,
   C7_buffer_provider.2.2.2 1024 _ ⟨0, 0⟩ (by decide)⟩

/-- Claim C4, counterexample: the depleted-kernel reset of lines 951-955 is an
else-branch reachable only when cur_write_threshold already equals
write_threshold.  At cur = 2048, target = 4096, kernel_frames = 0 the drain
condition of the claim holds (4096 - 0 > 1024*2), yet the code steps by a
quarter period to 2304 instead of resetting to (0/1024+1)*1024 + 256 =
1280. -/
theorem C4_counterexample :
    threshold_update 2048 4096 0 pcm_config_out.period_size = 2304 ∧
    ((0 : Int) < 4096 ∧
      (4096 : Int) - 0 > Int.ofNat (pcm_config_out.period_size * OUT_SHORT_PERIOD_COUNT)) ∧
    ((0 : Int) / Int.ofNat pcm_config_out.period_size + 1) * Int.ofNat pcm_config_out.period_size +
        Int.ofNat (pcm_config_out.period_size / 4) = 1280 ∧
    threshold_update 2048 4096 0 pcm_config_out.period_size ≠ 1280 := by
  decide

theorem threshold_update_of_lt (cur target kernel : Int) (h : cur < target) :
    threshold_update cur target kernel pcm_config_out.period_size =
      if target < cur + 256 then target else cur + 256 := by
  unfold threshold_update
  simp only [show Int.ofNat (pcm_config_out.period_size / 4) = 256 from by decide]
  rw [if_neg (by omega), if_pos h]

theorem threshold_update_of_gt (cur target kernel : Int) (h : target < cur) :
    threshold_update cur target kernel pcm_config_out.period_size =
      if cur - 256 < target then target else cur - 256 := by
  unfold threshold_update
  simp only [show Int.ofNat (pcm_config_out.period_size / 4) = 256 from by decide]
  rw [if_pos h]

theorem threshold_iter_converges_up (n : Nat) :
    ∀ (cur target : Int) (ks : Nat → Int), cur < target →
      target ≤ cur + 256 * ((n : Int) + 1) → cur + 256 * (n : Int) < target →
      threshold_iter target ks cur (n + 1) = target := by
  induction n with
  | zero =>
    intro cur target ks h1 h2 h3
    rw [threshold_iter, threshold_iter, threshold_update_of_lt _ _ _ h1]
    split <;> omega
  | succ n ih =>
    intro cur target ks h1 h2 h3
    rw [threshold_iter, threshold_update_of_lt _ _ _ h1, if_neg (by push_cast at h3 ⊢; omega)]
    exact ih (cur + 256) target _ (by push_cast at h3 ⊢; omega)
      (by push_cast at h2 ⊢; omega) (by push_cast at h3 ⊢; omega)

theorem threshold_iter_converges_down (n : Nat) :
    ∀ (cur target : Int) (ks : Nat → Int), target < cur →
      cur - 256 * ((n : Int) + 1) ≤ target → target < cur - 256 * (n : Int) →
      threshold_iter target ks cur (n + 1) = target := by
  induction n with
  | zero =>
    intro cur target ks h1 h2 h3
    rw [threshold_iter, threshold_iter, threshold_update_of_gt _ _ _ h1]
    split <;> omega
  | succ n ih =>
    intro cur target ks h1 h2 h3
    rw [threshold_iter, threshold_update_of_gt _ _ _ h1, if_neg (by push_cast at h3 ⊢; omega)]
    exact ih (cur - 256) target _ (by push_cast at h3 ⊢; omega)
      (by push_cast at h2 ⊢; omega) (by push_cast at h3 ⊢; omega)

/-- Claim C4 as amended: while cur_write_threshold differs from
write_threshold, each write steps it towards the target by at most
period_size/4 without overshooting, reaching the target after exactly
ceil(|T1-T0| / (period_size/4)) writes whatever kernel_frames readings
occur; the depleted-kernel reset to (kernel_frames/period_size + 1) *
period_size + period_size/4 applies only once cur_write_threshold already
equals write_threshold and the kernel buffer has drained more than
period_size * OUT_SHORT_PERIOD_COUNT frames below it. -/
theorem C4_amended :
    (∀ (cur target : Int) (ks : Nat → Int),
       threshold_iter target ks cur
         (((target - cur).natAbs + pcm_config_out.period_size / 4 - 1) /
           (pcm_config_out.period_size / 4)) = target) ∧
    (∀ cur target kernel : Int, cur < target →
       cur ≤ threshold_update cur target kernel pcm_config_out.period_size ∧
       threshold_update cur target kernel pcm_config_out.period_size ≤ target ∧
       threshold_update cur target kernel pcm_config_out.period_size - cur ≤
         Int.ofNat (pcm_config_out.period_size / 4)) ∧
    (∀ cur target kernel : Int, target < cur →
       target ≤ threshold_update cur target kernel pcm_config_out.period_size ∧
       threshold_update cur target kernel pcm_config_out.period_size ≤ cur ∧
       cur - threshold_update cur target kernel pcm_config_out.period_size ≤
         Int.ofNat (pcm_config_out.period_size / 4)) ∧
    (∀ target kernel : Int, 0 ≤ kernel → kernel < target →
       Int.ofNat (pcm_config_out.period_size * OUT_SHORT_PERIOD_COUNT) < target - kernel →
       threshold_update target target kernel pcm_config_out.period_size =
         (kernel / Int.ofNat pcm_config_out.period_size + 1) *
             Int.ofNat pcm_config_out.period_size +
           Int.ofNat (pcm_config_out.period_size / 4)) := by
  refine ⟨?_, ?_, ?_, ?_⟩
  · intro cur target ks
    have hq : pcm_config_out.period_size / 4 = 256 := by decide
    rw [hq]
    rcases lt_trichotomy cur target with h | h | h
    · have hd : (target - cur).natAbs + 256 - 1 = (target - cur).natAbs - 1 + 256 := by omega
      have hN : ((target - cur).natAbs + 256 - 1) / 256 = ((target - cur).natAbs - 1) / 256 + 1 := by
        omega
      rw [hN]
      apply threshold_iter_converges_up _ _ _ _ h <;> push_cast <;> omega
    · subst h
      simp [threshold_iter]
    · have hN : ((target - cur).natAbs + 256 - 1) / 256 = ((target - cur).natAbs - 1) / 256 + 1 := by
        omega
      rw [hN]
      apply threshold_iter_converges_down _ _ _ _ h <;> push_cast <;> omega
  · intro cur target kernel h
    rw [threshold_update_of_lt _ _ _ h]
    have : Int.ofNat (pcm_config_out.period_size / 4) = 256 := by decide
    rw [this]
    split <;> omega
  · intro cur target kernel h
    rw [threshold_update_of_gt _ _ _ h]
    have : Int.ofNat (pcm_config_out.period_size / 4) = 256 := by decide
    rw [this]
    split <;> omega
  · intro target kernel h0 h1 h2
    unfold threshold_update
    rw [if_neg (lt_irrefl target), if_neg (lt_irrefl target), if_pos ⟨h1, h2⟩]

/-- Witness for C4's amended theorem: convergence from 2048 to 4096 in
ceil(2048/256) = 8 writes, one upward step, and the converged-state reset at
kernel_frames = 0. -/
theorem C4_amended_witness :
    (threshold_iter 4096 (fun _ => (0 : Int)) 2048
       ((((4096 : Int) - 2048).natAbs + pcm_config_out.period_size / 4 - 1) /
         (pcm_config_out.period_size / 4)) = 4096) ∧
    ((2048 : Int) ≤ threshold_update 2048 4096 0 pcm_config_out.period_size ∧
     threshold_update 2048 4096 0 pcm_config_out.period_size ≤ 4096 ∧
     threshold_update 2048 4096 0 pcm_config_out.period_size - 2048 ≤
       Int.ofNat (pcm_config_out.period_size / 4)) ∧
    (threshold_update 4096 4096 0 pcm_config_out.period_size =
       ((0 : Int) / Int.ofNat pcm_config_out.period_size + 1) *
           Int.ofNat pcm_config_out.period_size +
         Int.ofNat (pcm_config_out.period_size / 4)) :=
  ⟨C4_amended.1 2048 4096 (fun _ => 0),
   C4_amended.2.1 2048 4096 0 (by decide),
   C4_amended.2.2.2 4096 0 (by decide) (by decide) (by decide)⟩

theorem pace_loop_invariant :
    ∀ (fuel : Nat) (cur : Int) (ht : Nat → Option Int) (i : Nat) (st : PaceState),
      st.slept_us = st.total_sleep_time_us → 0 ≤ st.total_sleep_time_us →
      st.total_sleep_time_us ≤ MAX_WRITE_SLEEP_US →
      MAX_WRITE_SLEEP_US - st.total_sleep_time_us < 2000 * fuel →
      ((pace_loop cur ht fuel i st).2.isSome = true ∧
       (pace_loop cur ht fuel i st).1.slept_us ≤ MAX_WRITE_SLEEP_US ∧
       ((pace_loop cur ht fuel i st).2 = some PaceExit.maxSleep →
         (pace_loop cur ht fuel i st).1.slept_us = MAX_WRITE_SLEEP_US)) := by
  intro fuel
  have hM : MAX_WRITE_SLEEP_US = 46439 := by decide
  have hm : MIN_WRITE_SLEEP_US = 2000 := by decide
  induction fuel with
  | zero =>
    intro cur ht i st h1 h2 h3 h4
    exfalso
    omega
  | succ fuel ih =>
    intro cur ht i st h1 h2 h3 h4
    rw [pace_loop]
    cases hts : ht i with
    | none =>
      dsimp only
      exact ⟨rfl, by omega, fun hcontra => by simp at hcontra⟩
    | some avail =>
      dsimp only
      by_cases h5 : cur < pcm_out_buffer_size - avail
      · rw [if_pos h5]
        by_cases h6 : (pcm_out_buffer_size - avail - cur) * 1000000 / Int.ofNat OUT_SAMPLING_RATE <
            MIN_WRITE_SLEEP_US
        · rw [if_pos h6]
          dsimp only
          exact ⟨rfl, by omega, fun hcontra => by simp at hcontra⟩
        · rw [if_neg h6]
          by_cases h7 : MAX_WRITE_SLEEP_US <
              st.total_sleep_time_us +
                (pcm_out_buffer_size - avail - cur) * 1000000 / Int.ofNat OUT_SAMPLING_RATE
          · rw [if_pos h7, if_pos h7]
            dsimp only
            exact ⟨rfl, by omega, fun hcontra => by omega⟩
          · rw [if_neg h7, if_neg h7]
            apply ih <;> dsimp only <;> omega
      · rw [if_neg h5]
        dsimp only
        exact ⟨rfl, by omega, fun hcontra => by simp at hcontra⟩

/-- Claim C8: for every behaviour of the hardware timestamp facility and any
current threshold, the pacing loop of out_write terminates (fuel 30 is never
exhausted: each sleeping iteration adds at least MIN_WRITE_SLEEP_US = 2000us
to the accumulated counter, which the loop condition bounds by
MAX_WRITE_SLEEP_US = 46439us); the total time actually slept never exceeds
MAX_WRITE_SLEEP_US, and when the loop exits because the accumulated counter
exceeded that bound the final sleep was clamped so the total slept equals
the bound exactly. -/
theorem C8_pace_loop_terminates :
    ∀ (cur : Int) (ht : Nat → Option Int) (k0 : Int),
      ((pace_loop cur ht 30 0
          { kernel_frames := k0, total_sleep_time_us := 0, slept_us := 0 }).2.isSome = true ∧
       (pace_loop cur ht 30 0
          { kernel_frames := k0, total_sleep_time_us := 0, slept_us := 0 }).1.slept_us ≤
         MAX_WRITE_SLEEP_US ∧
       ((pace_loop cur ht 30 0
          { kernel_frames := k0, total_sleep_time_us := 0, slept_us := 0 }).2 =
            some PaceExit.maxSleep →
         (pace_loop cur ht 30 0
          { kernel_frames := k0, total_sleep_time_us := 0, slept_us := 0 }).1.slept_us =
           MAX_WRITE_SLEEP_US)) := by
  intro cur ht k0
  exact pace_loop_invariant 30 cur ht 0 _ rfl (le_refl 0) (by dsimp only; decide)
    (by dsimp only; decide)

/-- Witness for C8: with the kernel persistently full (avail = 0) the loop
exits on the max-sleep bound with exactly MAX_WRITE_SLEEP_US slept. -/
theorem C8_pace_loop_terminates_witness :
    ((pace_loop 0 (fun _ => some 0) 30 0
        { kernel_frames := 0, total_sleep_time_us := 0, slept_us := 0 }).2.isSome = true ∧
     (pace_loop 0 (fun _ => some 0) 30 0
        { kernel_frames := 0, total_sleep_time_us := 0, slept_us := 0 }).1.slept_us =
       MAX_WRITE_SLEEP_US) :=
  ⟨(C8_pace_loop_terminates 0 (fun _ => some 0) 0).1,
   (C8_pace_loop_terminates 0 (fun _ => some 0) 0).2.2 (by decide)⟩

theorem out_write_regime_fields (a b : Bool) (o : StreamOutState) :
    (out_write_regime a b o).written = o.written ∧
    (out_write_regime a b o).standby = o.standby ∧
    (out_write_regime a b o).pcmOpen = o.pcmOpen ∧
    (out_write_regime a b o).resampler = o.resampler ∧
    (out_write_regime a b o).buffer = o.buffer := by
  unfold out_write_regime
  dsimp only
  split_ifs <;> exact ⟨rfl, rfl, rfl, rfl, rfl⟩

theorem out_write_activate_not_standby (a b : Bool) (s : Sys) (h : s.out.standby = false) :
    out_write_activate a b s = (0, s) := by
  simp [out_write_activate, h]

/-- Claim C2: on an active output stream (standby already exited), out_write
returns -EPIPE immediately and without compensating sleep when pcm_write
reports an underrun; on any other pcm_write failure it returns the full
caller byte count after the compensating sleep
bytes * 1000000 / frame_size / rate; on success it returns the full byte
count, sleeps nothing extra, and advances the cumulative written counter by
the frames written (bytes / frame_size, no resampling). -/
theorem C2_out_write_error_paths (e : OutWriteEnv) (bytes : Nat) (s : Sys)
    (h : s.out.standby = false) :
    (e.pcm_write_ret = -EPIPE →
       (out_write e bytes s).retval = -EPIPE ∧
       (out_write e bytes s).comp_sleep_us = 0 ∧
       (out_write e bytes s).sys.out.written = s.out.written) ∧
    (e.pcm_write_ret ≠ -EPIPE → e.pcm_write_ret ≠ 0 →
       (out_write e bytes s).retval = (bytes : Int) ∧
       (out_write e bytes s).comp_sleep_us =
         bytes * 1000000 / audio_stream_out_frame_size / OUT_SAMPLING_RATE ∧
       (out_write e bytes s).sys.out.written = s.out.written) ∧
    (e.pcm_write_ret = 0 →
       (out_write e bytes s).retval = (bytes : Int) ∧
       (out_write e bytes s).comp_sleep_us = 0 ∧
       (out_write e bytes s).sys.out.written =
         s.out.written + bytes / audio_stream_out_frame_size) := by
  have hact := out_write_activate_not_standby e.openOutOk e.openInOk s h
  have hreg := out_write_regime_fields s.dev.screen_off s.dev.active_in s.out
  have hrs : out_resample_needed = false := by decide
  unfold out_write
  rw [hact]
  dsimp only
  rw [if_neg (by decide : ¬((0 : Int) ≠ 0))]
  simp only [hrs, Bool.false_eq_true, if_false]
  refine ⟨?_, ?_, ?_⟩
  · intro hp
    rw [if_pos hp]
    exact ⟨rfl, rfl, hreg.1⟩
  · intro hp hz
    rw [if_neg hp, if_neg hz, if_pos hz]
    exact ⟨rfl, rfl, hreg.1⟩
  · intro hz
    rw [if_neg (by rw [hz]; decide), if_pos hz, if_neg (by rw [hz]; simp)]
    refine ⟨rfl, rfl, ?_⟩
    dsimp only
    rw [hreg.1]

/-- Witness for C2: a success, an underrun, and an opaque-error call at a
concrete active state. -/
theorem C2_out_write_error_paths_witness :
    ((out_write env_ok 4096 (out_write env_ok 4096 sys0).sys).retval = (4096 : Int) ∧
     (out_write env_ok 4096 (out_write env_ok 4096 sys0).sys).comp_sleep_us = 0 ∧
     (out_write env_ok 4096 (out_write env_ok 4096 sys0).sys).sys.out.written =
       (out_write env_ok 4096 sys0).sys.out.written + 4096 / audio_stream_out_frame_size) :=
  (C2_out_write_error_paths env_ok 4096 (out_write env_ok 4096 sys0).sys (by decide)).2.2 rfl

theorem out_write_activate_fail (b : Bool) (s : Sys) (hst : s.out.standby = true) :
    (out_write_activate false b s).1 = -ENOMEM ∧
    (out_write_activate false b s).2.out.standby = s.out.standby ∧
    (out_write_activate false b s).2.out.pcmOpen = false ∧
    (out_write_activate false b s).2.out.resampler = s.out.resampler ∧
    (out_write_activate false b s).2.out.buffer = s.out.buffer := by
  unfold out_write_activate start_output_stream
  simp only [hst, if_true]
  by_cases hneg : s.dev.active_in && !s.inp.standby <;>
    simp [hneg, do_in_standby_out_eq, ENOMEM, hst]

/-- Claim C6, counterexample: when the output pcm open fails during the
standby-to-active transition triggered by out_write, the write call does NOT
propagate a negative status to its caller: start_output_stream returns
-ENOMEM internally, but out_write returns the full byte count 4096 after a
compensating sleep of 23219us. -/
theorem C6_counterexample :
    (start_output_stream false sys0).1 = -ENOMEM ∧
    (out_write env_openfail 4096 sys0).retval = 4096 ∧
    ¬((out_write env_openfail 4096 sys0).retval < 0) ∧
    (out_write env_openfail 4096 sys0).comp_sleep_us = 23219 := by
  decide

/-- Claim C6 as amended: on an open failure during the STANDBY-to-ACTIVE
transition, start_output_stream returns a negative status (-ENOMEM) to the
stream operation that invoked it; that operation abandons the write, leaves
the stream in STANDBY with no open handle, no resampler and no buffer
allocated, but reports the full caller byte count (after the full-duration
compensating sleep) instead of a negative status to its own caller. -/
theorem C6_amended (e : OutWriteEnv) (bytes : Nat) (s : Sys)
    (hopen : e.openOutOk = false) (hst : s.out.standby = true)
    (hres : s.out.resampler = false) (hbuf : s.out.buffer = false) :
    (∀ t : Sys, (start_output_stream false t).1 = -ENOMEM) ∧
    (out_write e bytes s).retval = (bytes : Int) ∧
    (out_write e bytes s).comp_sleep_us =
      bytes * 1000000 / audio_stream_out_frame_size / OUT_SAMPLING_RATE ∧
    (out_write e bytes s).sys.out.standby = true ∧
    (out_write e bytes s).sys.out.pcmOpen = false ∧
    (out_write e bytes s).sys.out.resampler = false ∧
    (out_write e bytes s).sys.out.buffer = false := by
  obtain ⟨ha1, ha2, ha3, ha4, ha5⟩ := out_write_activate_fail e.openInOk s hst
  refine ⟨fun t => rfl, ?_⟩
  unfold out_write
  rw [hopen]
  rw [if_pos (by rw [ha1]; decide)]
  exact ⟨rfl, rfl, by rw [ha2, hst], ha3, by rw [ha4, hres], by rw [ha5, hbuf]⟩

/-- Witness for C6's amended theorem at the fresh system with a failing
output open. -/
theorem C6_amended_witness :
    ((start_output_stream false sys0).1 = -ENOMEM ∧
     (out_write env_openfail 8192 sys0).retval = (8192 : Int) ∧
     (out_write env_openfail 8192 sys0).comp_sleep_us =
       8192 * 1000000 / audio_stream_out_frame_size / OUT_SAMPLING_RATE ∧
     (out_write env_openfail 8192 sys0).sys.out.standby = true ∧
     (out_write env_openfail 8192 sys0).sys.out.pcmOpen = false ∧
     (out_write env_openfail 8192 sys0).sys.out.resampler = false ∧
     (out_write env_openfail 8192 sys0).sys.out.buffer = false) := by
  have h := C6_amended env_openfail 8192 sys0 rfl rfl rfl rfl
  exact ⟨h.1 sys0, h.2⟩

/-- Claim C10: the reported output sample rate is the constant hardware rate
44100; adev_open_output_stream accepts only requested rate 44100 (and
reports 44100 back); hence the rate-mismatch condition of
start_output_stream and out_write is statically false: start_output_stream
never allocates an output resampler or conversion buffer and out_write never
takes the resample branch. -/
theorem C10_no_output_resampler :
    out_get_sample_rate = 44100 ∧
    (∀ cfg cfg' : AudioConfig, adev_open_output_stream cfg = Except.ok cfg' →
       cfg.sample_rate = 44100 ∧ cfg'.sample_rate = 44100) ∧
    out_resample_needed = false ∧
    (∀ (ok : Bool) (s : Sys),
       (start_output_stream ok s).2.out.resampler = s.out.resampler ∧
       (start_output_stream ok s).2.out.buffer = s.out.buffer) ∧
    (∀ (e : OutWriteEnv) (bytes : Nat) (s : Sys), (out_write e bytes s).resampled = false) := by
  refine ⟨rfl, ?_, by decide, ?_, ?_⟩
  · intro cfg cfg' hok
    unfold adev_open_output_stream at hok
    by_cases hc : cfg.channel_mask ≠ AUDIO_CHANNEL_OUT_STEREO ∨ cfg.sample_rate ≠ 44100
    · rw [if_pos hc] at hok
      exact absurd hok (by simp)
    · rw [if_neg hc] at hok
      push_neg at hc
      cases hok
      exact ⟨hc.2, rfl⟩
  · intro ok s
    cases ok <;> simp [start_output_stream, show out_resample_needed = false from by decide]
  · intro e bytes s
    unfold out_write
    dsimp only
    by_cases hact : (out_write_activate e.openOutOk e.openInOk s).1 ≠ 0
    · rw [if_pos hact]
    · rw [if_neg hact]
      simp only [show out_resample_needed = false from by decide, Bool.false_eq_true, if_false]
      split <;> rfl

/-- Witness for C10 at the accepted stereo/44100 configuration. -/
theorem C10_no_output_resampler_witness :
    (({ channel_mask := 3, sample_rate := 44100 } : AudioConfig).sample_rate = 44100 ∧
     ({ channel_mask := AUDIO_CHANNEL_OUT_STEREO,
        sample_rate := out_get_sample_rate } : AudioConfig).sample_rate = 44100) ∧
    (out_write env_ok 4096 sys0).resampled = false :=
  ⟨C10_no_output_resampler.2.1 { channel_mask := 3, sample_rate := 44100 }
      { channel_mask := AUDIO_CHANNEL_OUT_STEREO, sample_rate := out_get_sample_rate } rfl,
   C10_no_output_resampler.2.2.2.2 env_ok 4096 sys0⟩
